import Mathlib

/-!
# CreateIssue form: validation, tag editor and submission handler

A shallow embedding of `src/components/Issues/CreateIssue.jsx`.

* JavaScript strings are sequences of UTF-16 code units; `.length` counts code
  units and `.trim()` strips the ECMAScript WhiteSpace and LineTerminator code
  units from both ends.
* The `newErrors` object of `validateForm` is an insertion-ordered list of
  key/value pairs.
* Event handlers close over the values of the render they belong to (`formData`,
  `newTag`, `user`, the collaborators) and write to the React state cells through
  the setters.  A handler is a function from a world (state cells plus the log of
  the calls made so far) to a completion (normal or thrown) and a new world.
-/

namespace CreateIssue

/-! ## JavaScript strings -/

/-- A UTF-16 code unit. -/
abbrev CodeUnit := Nat

/-- A JavaScript string value: its sequence of UTF-16 code units. -/
abbrev JSString := List CodeUnit

/-- UTF-16 encoding of one Unicode scalar value. -/
def utf16Char (c : Char) : List CodeUnit :=
  if c.toNat < 0x10000 then [c.toNat]
  else [0xD800 + (c.toNat - 0x10000) / 0x400, 0xDC00 + (c.toNat - 0x10000) % 0x400]

/-- The JavaScript string denoted by a source literal. -/
def utf16 (s : String) : JSString :=
  s.toList.flatMap utf16Char

/-- ECMAScript WhiteSpace and LineTerminator code units, the ones `trim` strips. -/
def isWhiteSpace (u : CodeUnit) : Bool :=
  u == 0x0009 || u == 0x000A || u == 0x000B || u == 0x000C || u == 0x000D
    || u == 0x0020 || u == 0x00A0 || u == 0x1680
    || (0x2000 ≤ u && u ≤ 0x200A)
    || u == 0x2028 || u == 0x2029 || u == 0x202F || u == 0x205F
    || u == 0x3000 || u == 0xFEFF

/-- `String.prototype.trim`. -/
def trim (s : JSString) : JSString :=
  (s.dropWhile isWhiteSpace).rdropWhile isWhiteSpace

/-- `String.prototype.length`. -/
def length (s : JSString) : Nat := List.length s

/-- JavaScript truthiness of a string: `!s` is true exactly for the empty string. -/
def truthy (s : JSString) : Bool := !s.isEmpty

/-! ## Plain objects with string keys -/

/-- An object whose own properties are strings, in insertion order. -/
abbrev JSObject := List (JSString × JSString)

/-- Property assignment `obj[k] = v`. -/
def JSObject.set : JSObject → JSString → JSString → JSObject
  | [], k, v => [(k, v)]
  | (k', v') :: rest, k, v =>
    if k' = k then (k, v) :: rest else (k', v') :: JSObject.set rest k v

/-- Property read `obj[k]`; `none` stands for `undefined`. -/
def JSObject.get : JSObject → JSString → Option JSString
  | [], _ => none
  | (k', v') :: rest, k => if k' = k then some v' else JSObject.get rest k

/-- The list `Object.keys(obj)`. -/
def JSObject.keys (obj : JSObject) : List JSString := obj.map Prod.fst

/-! ## Component state -/

/-- The `formData` draft. -/
structure Draft where
  title : JSString
  description : JSString
  category : JSString
  priority : JSString
  location : JSString
  tags : List JSString
  deriving DecidableEq, Repr

/-- The four `useState` cells of the component. -/
structure ReactState where
  isSubmitting : Bool
  formData : Draft
  newTag : JSString
  errors : JSObject
  deriving DecidableEq, Repr

/-- Initial values passed to `useState`. -/
def initialState : ReactState where
  isSubmitting := false
  formData :=
    { title := utf16 ""
      description := utf16 ""
      category := utf16 ""
      priority := utf16 "medium"
      location := utf16 ""
      tags := [] }
  newTag := utf16 ""
  errors := []

/-! ## validateForm: the error object -/

/-- The object `newErrors` built by `validateForm` from the current draft. -/
def validateForm.newErrors (formData : Draft) : JSObject :=
  let newErrors : JSObject := []
  let newErrors :=
    if !truthy (trim formData.title) then
      newErrors.set (utf16 "title") (utf16 "Title is required")
    else if length formData.title < 10 then
      newErrors.set (utf16 "title") (utf16 "Title must be at least 10 characters long")
    else if length formData.title > 200 then
      newErrors.set (utf16 "title") (utf16 "Title must be less than 200 characters")
    else newErrors
  let newErrors :=
    if !truthy (trim formData.description) then
      newErrors.set (utf16 "description") (utf16 "Description is required")
    else if length formData.description < 20 then
      newErrors.set (utf16 "description")
        (utf16 "Description must be at least 20 characters long")
    else if length formData.description > 2000 then
      newErrors.set (utf16 "description")
        (utf16 "Description must be less than 2000 characters")
    else newErrors
  let newErrors :=
    if !truthy formData.category then
      newErrors.set (utf16 "category") (utf16 "Category is required")
    else newErrors
  newErrors

/-! ## Tag editor -/

/-- The handler `addTag` of the render with state `s`, as the state it leaves. -/
def addTag (s : ReactState) : ReactState :=
  if truthy (trim s.newTag) && !(s.formData.tags.contains (trim s.newTag))
      && s.formData.tags.length < 5 then
    { s with
      formData := { s.formData with tags := s.formData.tags ++ [trim s.newTag] }
      newTag := utf16 "" }
  else s

/-- The handler `removeTag` of the render with state `s`, as the state it leaves. -/
def removeTag (s : ReactState) (tagToRemove : JSString) : ReactState :=
  { s with
    formData :=
      { s.formData with tags := s.formData.tags.filter (fun tag => tag != tagToRemove) } }

/-- User actions on the form that reach the draft or the pending tag input. -/
inductive Action
  | changeTitle (value : JSString)
  | changeCategory (value : JSString)
  | changePriority (value : JSString)
  | changeLocation (value : JSString)
  | changeDescription (value : JSString)
  | changeNewTag (value : JSString)
  | addTag
  | removeTag (tag : JSString)
  deriving DecidableEq, Repr

/-- State after the handler bound to an action has run in the render with state `s`. -/
def step (s : ReactState) : Action → ReactState
  | .changeTitle v => { s with formData := { s.formData with title := v } }
  | .changeCategory v => { s with formData := { s.formData with category := v } }
  | .changePriority v => { s with formData := { s.formData with priority := v } }
  | .changeLocation v => { s with formData := { s.formData with location := v } }
  | .changeDescription v => { s with formData := { s.formData with description := v } }
  | .changeNewTag v => { s with newTag := v }
  | .addTag => addTag s
  | .removeTag t => removeTag s t

/-- State after a sequence of actions, each handled in the render that follows the
previous one. -/
def run (s : ReactState) (actions : List Action) : ReactState :=
  actions.foldl step s

/-! ## Collaborators and the handler monad -/

/-- The current user supplied by `useAuth`. -/
structure User (ι : Type) where
  id : ι
  name : JSString

/-- Argument of `addIssue`: the draft spread, then the three derived fields. -/
structure IssuePayload (ι : Type) where
  title : JSString
  description : JSString
  category : JSString
  priority : JSString
  location : JSString
  tags : List JSString
  status : JSString
  citizenId : ι
  citizenName : JSString

/-- Argument of `addNotification`. -/
structure NotificationEntry (ι : Type) where
  userId : ι
  title : JSString
  message : JSString
  type : JSString
  read : Bool

/-- Calls a handler makes, in the order it makes them. -/
inductive Effect (ι ε : Type)
  | preventDefault
  | setErrors (errs : JSObject)
  | alert (msg : JSString)
  | setIsSubmitting (b : Bool)
  | setTimeout (ms : Nat)
  | addIssue (p : IssuePayload ι)
  | addNotification (n : NotificationEntry ι)
  | onCancel
  | consoleError (label : JSString) (error : ε)

/-- What a render closes over besides its state: the user and the collaborators.
A collaborator either returns or throws a value of type `ε`. -/
structure Env (ι ε : Type) where
  user : Option (User ι)
  addIssue : IssuePayload ι → Except ε Unit
  addNotification : NotificationEntry ι → Except ε Unit
  onCancel : Except ε Unit

/-- The state cells and the calls made so far. -/
structure World (ι ε : Type) where
  state : ReactState
  log : List (Effect ι ε)

/-- A handler body: it completes normally or throws, and leaves a world. -/
def Handler (ι ε α : Type) : Type :=
  World ι ε → Except ε α × World ι ε

namespace Handler

variable {ι ε α β : Type}

/-- Normal completion with a value. -/
def ret (a : α) : Handler ι ε α := fun w => (.ok a, w)

/-- Sequencing: a throw skips the rest. -/
def andThen (m : Handler ι ε α) (f : α → Handler ι ε β) : Handler ι ε β := fun w =>
  match m w with
  | (.ok a, w') => f a w'
  | (.error e, w') => (.error e, w')

/-- The statement `throw e`. -/
def raise (e : ε) : Handler ι ε α := fun w => (.error e, w)

/-- The block `try body catch (error) handler`. -/
def tryCatch (body : Handler ι ε α) (handler : ε → Handler ι ε α) : Handler ι ε α := fun w =>
  match body w with
  | (.ok a, w') => (.ok a, w')
  | (.error e, w') => handler e w'

/-- The block `try body finally fin`: `fin` always runs; its own throw wins. -/
def tryFinally (body : Handler ι ε α) (fin : Option α → Handler ι ε β) :
    Handler ι ε (α × β) := fun w =>
  match body w with
  | (.ok a, w') =>
    match fin (some a) w' with
    | (.ok b, w₂) => (.ok (a, b), w₂)
    | (.error e, w₂) => (.error e, w₂)
  | (.error e, w') =>
    match fin none w' with
    | (.ok _, w₂) => (.error e, w₂)
    | (.error e₂, w₂) => (.error e₂, w₂)

/-- Record a call that cannot throw. -/
def emit (eff : Effect ι ε) : Handler ι ε Unit := fun w =>
  (.ok (), { w with log := w.log ++ [eff] })

/-- Record a call to a collaborator and complete the way the collaborator does. -/
def call (eff : Effect ι ε) (outcome : Except ε Unit) : Handler ι ε Unit := fun w =>
  (outcome, { w with log := w.log ++ [eff] })

/-- Apply a state setter. -/
def modifyState (f : ReactState → ReactState) : Handler ι ε Unit := fun w =>
  (.ok (), { w with state := f w.state })

end Handler

instance {ι ε : Type} : Monad (Handler ι ε) where
  pure := Handler.ret
  bind := Handler.andThen

instance {ι ε : Type} : MonadExcept ε (Handler ι ε) where
  throw := Handler.raise
  tryCatch := Handler.tryCatch

instance {ι ε : Type} : MonadFinally (Handler ι ε) where
  tryFinally' := Handler.tryFinally

section Handlers

variable {ι ε : Type}

open Handler

/-- The setter `setErrors`. -/
def setErrors (errs : JSObject) : Handler ι ε Unit := do
  emit (.setErrors errs)
  modifyState (fun s => { s with errors := errs })

/-- The setter `setIsSubmitting`. -/
def setIsSubmitting (b : Bool) : Handler ι ε Unit := do
  emit (.setIsSubmitting b)
  modifyState (fun s => { s with isSubmitting := b })

/-- The function `validateForm` of the render whose draft is `formData`. -/
def validateForm (formData : Draft) : Handler ι ε Bool := do
  let newErrors := validateForm.newErrors formData
  setErrors newErrors
  return (JSObject.keys newErrors).length == 0

/-- The object literal passed to `addIssue`. -/
def handleSubmit.issuePayload (formData : Draft) (user : User ι) : IssuePayload ι :=
  { title := formData.title
    description := formData.description
    category := formData.category
    priority := formData.priority
    location := formData.location
    tags := formData.tags
    status := utf16 "submitted"
    citizenId := user.id
    citizenName := user.name }

/-- The object literal passed to `addNotification`. -/
def handleSubmit.notification (formData : Draft) (user : User ι) : NotificationEntry ι :=
  { userId := user.id
    title := utf16 "Issue Submitted Successfully"
    message := utf16 "Your issue \"" ++ formData.title
      ++ utf16 "\" has been submitted and is awaiting review."
    type := utf16 "success"
    read := false }

/-- The handler `handleSubmit` of the render whose draft is `formData`. -/
def handleSubmit (env : Env ι ε) (formData : Draft) : Handler ι ε Unit := do
  emit .preventDefault
  if !(← validateForm formData) then
    return
  match env.user with
  | none =>
    emit (.alert (utf16 "Please log in to submit an issue."))
    return
  | some user =>
    setIsSubmitting true
    try
      emit (.setTimeout 1000)
      call (.addIssue (handleSubmit.issuePayload formData user))
        (env.addIssue (handleSubmit.issuePayload formData user))
      call (.addNotification (handleSubmit.notification formData user))
        (env.addNotification (handleSubmit.notification formData user))
      call .onCancel env.onCancel
    catch error =>
      emit (.consoleError (utf16 "Error submitting issue:") error)
    finally
      setIsSubmitting false

end Handlers

/-! ## The rules as the specification words them -/

/-- The title rule: required, then the lower bound 10, then the upper bound 200. -/
def titleRule (title : JSString) : Option JSString :=
  if (trim title).length = 0 then some (utf16 "Title is required")
  else if title.length < 10 then some (utf16 "Title must be at least 10 characters long")
  else if title.length > 200 then some (utf16 "Title must be less than 200 characters")
  else none

/-- The description rule: required, then the lower bound 20, then the upper bound 2000. -/
def descriptionRule (description : JSString) : Option JSString :=
  if (trim description).length = 0 then some (utf16 "Description is required")
  else if description.length < 20 then
    some (utf16 "Description must be at least 20 characters long")
  else if description.length > 2000 then
    some (utf16 "Description must be less than 2000 characters")
  else none

/-- The category rule: required. -/
def categoryRule (category : JSString) : Option JSString :=
  if category.length = 0 then some (utf16 "Category is required") else none

/-- The tag-list invariant: at most five entries, no two equal, each non-empty and
equal to its own trim. -/
def TagsOk (tags : List JSString) : Prop :=
  tags.length ≤ 5 ∧ tags.Nodup ∧ ∀ t ∈ tags, t ≠ [] ∧ trim t = t

instance (tags : List JSString) : Decidable (TagsOk tags) := by
  unfold TagsOk; infer_instance

/-- The length bound of the tag-entry control: the pending input and every tag have at
most 20 code units. -/
def LengthOk (s : ReactState) : Prop :=
  s.newTag.length ≤ 20 ∧ ∀ t ∈ s.formData.tags, t.length ≤ 20

instance (s : ReactState) : Decidable (LengthOk s) := by
  unfold LengthOk; infer_instance

/-- A pending input of 21 code units. -/
def longTag : JSString := utf16 "abandoned-vehicle-lot"

/-- The five tags of the cap scenario. -/
def fiveTags : List JSString :=
  [utf16 "safety", utf16 "urgent", utf16 "downtown", utf16 "parks", utf16 "trash"]

/-! ## Observing a run -/

/-- Whether a call is a call to `addIssue`. -/
def Effect.isAddIssue {ι ε : Type} : Effect ι ε → Bool
  | .addIssue _ => true
  | _ => false

/-- Whether a call is a call to `addNotification`. -/
def Effect.isAddNotification {ι ε : Type} : Effect ι ε → Bool
  | .addNotification _ => true
  | _ => false

/-- Whether a call is a call to `onCancel`. -/
def Effect.isOnCancel {ι ε : Type} : Effect ι ε → Bool
  | .onCancel => true
  | _ => false

/-- Whether a call is a call to one of the three collaborators. -/
def Effect.isCollaborator {ι ε : Type} (c : Effect ι ε) : Bool :=
  c.isAddIssue || c.isAddNotification || c.isOnCancel

/-- Whether a call raises the in-progress flag. -/
def Effect.raisesFlag {ι ε : Type} : Effect ι ε → Bool
  | .setIsSubmitting true => true
  | _ => false

/-- The calls `handleSubmit` makes when started in world `w`, in order. -/
def handleSubmit.calls {ι ε : Type} (env : Env ι ε) (formData : Draft) (w : World ι ε) :
    List (Effect ι ε) :=
  (handleSubmit env formData w).2.log.drop w.log.length

/-- The draft of the submission scenario. -/
def scenarioDraft : Draft :=
  { title := utf16 "Pothole on Main St"
    description := utf16 "There is a large pothole that has damaged two cars this week."
    category := utf16 "Roads"
    priority := utf16 "medium"
    location := utf16 ""
    tags := [] }

/-- The user of the submission scenario. -/
def scenarioUser : User Nat := { id := 1, name := utf16 "A" }

/-- Collaborators that all return, with the scenario user logged in. -/
def scenarioEnv : Env Nat String :=
  { user := some scenarioUser
    addIssue := fun _ => .ok ()
    addNotification := fun _ => .ok ()
    onCancel := .ok () }

/-- An issue store that throws, with the scenario user logged in. -/
def failingStoreEnv : Env Nat String :=
  { user := some scenarioUser
    addIssue := fun _ => .error "store unavailable"
    addNotification := fun _ => .ok ()
    onCancel := .ok () }

/-- Nobody logged in. -/
def anonymousEnv : Env Nat String :=
  { user := none
    addIssue := fun _ => .ok ()
    addNotification := fun _ => .ok ()
    onCancel := .ok () }

/-- The world of the first render of the scenario: the draft typed in, nothing called. -/
def scenarioWorld : World Nat String :=
  { state := { initialState with formData := scenarioDraft }
    log := [] }

/-! ## Facts about keys, objects and trimming -/

theorem key_title_ne_description : utf16 "title" ≠ utf16 "description" := by decide

theorem key_title_ne_category : utf16 "title" ≠ utf16 "category" := by decide

theorem key_description_ne_title : utf16 "description" ≠ utf16 "title" := by decide

theorem key_description_ne_category : utf16 "description" ≠ utf16 "category" := by decide

theorem key_category_ne_title : utf16 "category" ≠ utf16 "title" := by decide

theorem key_category_ne_description : utf16 "category" ≠ utf16 "description" := by decide

theorem truthy_iff (s : JSString) : truthy s = true ↔ s.length ≠ 0 := by
  cases s <;> simp [truthy]

theorem newErrors_get_title (d : Draft) :
    (validateForm.newErrors d).get (utf16 "title") = titleRule d.title := by
  simp only [validateForm.newErrors, titleRule, length]
  have h := truthy_iff (trim d.title)
  split_ifs <;>
    simp_all [JSObject.set, JSObject.get, key_title_ne_description, key_title_ne_category,
      key_description_ne_title, key_category_ne_title]

theorem newErrors_get_description (d : Draft) :
    (validateForm.newErrors d).get (utf16 "description") = descriptionRule d.description := by
  simp only [validateForm.newErrors, descriptionRule, length]
  have h := truthy_iff (trim d.description)
  split_ifs <;>
    simp_all [JSObject.set, JSObject.get, key_title_ne_description, key_title_ne_category,
      key_description_ne_title, key_category_ne_description, key_description_ne_category]

theorem newErrors_get_category (d : Draft) :
    (validateForm.newErrors d).get (utf16 "category") = categoryRule d.category := by
  simp only [validateForm.newErrors, categoryRule, length]
  have h := truthy_iff d.category
  split_ifs <;>
    simp_all [JSObject.set, JSObject.get, key_title_ne_description, key_title_ne_category,
      key_description_ne_title, key_category_ne_description, key_description_ne_category]

theorem set_of_not_mem_keys (obj : JSObject) (k v : JSString)
    (h : k ∉ JSObject.keys obj) : obj.set k v = obj ++ [(k, v)] := by
  induction obj with
  | nil => rfl
  | cons p rest ih =>
    obtain ⟨k', v'⟩ := p
    simp only [JSObject.keys, List.map_cons, List.mem_cons, not_or] at h
    have hne : ¬ k' = k := fun e => h.1 e.symm
    simp only [JSObject.set, if_neg hne, List.cons_append]
    rw [ih h.2]

theorem keys_entry (k : JSString) (o : Option JSString) :
    JSObject.keys (o.toList.map fun m => (k, m)) = o.toList.map fun _ => k := by
  cases o <;> rfl

theorem mem_keys_entry {k k' : JSString} {o : Option JSString}
    (h : k' ∈ JSObject.keys (o.toList.map fun m => (k, m))) : k' = k := by
  cases o with
  | none => simp [JSObject.keys] at h
  | some m => simpa [JSObject.keys] using h

/-- The error object in normal form: one optional entry per rule, in source order. -/
theorem newErrors_eq (d : Draft) :
    validateForm.newErrors d =
      ((titleRule d.title).toList.map fun m => (utf16 "title", m))
        ++ ((descriptionRule d.description).toList.map fun m => (utf16 "description", m))
        ++ ((categoryRule d.category).toList.map fun m => (utf16 "category", m)) := by
  have h₁ := truthy_iff (trim d.title)
  have h₂ := truthy_iff (trim d.description)
  have h₃ := truthy_iff d.category
  have e₁ : (if (!truthy (trim d.title)) = true then
        JSObject.set [] (utf16 "title") (utf16 "Title is required")
      else if length d.title < 10 then
        JSObject.set [] (utf16 "title") (utf16 "Title must be at least 10 characters long")
      else if length d.title > 200 then
        JSObject.set [] (utf16 "title") (utf16 "Title must be less than 200 characters")
      else []) = ((titleRule d.title).toList.map fun m => (utf16 "title", m)) := by
    simp only [titleRule, length]
    split_ifs <;> simp_all [JSObject.set]
  have e₂ : ∀ obj : JSObject, utf16 "description" ∉ JSObject.keys obj →
      (if (!truthy (trim d.description)) = true then
        obj.set (utf16 "description") (utf16 "Description is required")
      else if length d.description < 20 then
        obj.set (utf16 "description") (utf16 "Description must be at least 20 characters long")
      else if length d.description > 2000 then
        obj.set (utf16 "description") (utf16 "Description must be less than 2000 characters")
      else obj)
        = obj ++ ((descriptionRule d.description).toList.map
            fun m => (utf16 "description", m)) := by
    intro obj hk
    simp only [descriptionRule, length]
    split_ifs <;> simp_all [set_of_not_mem_keys]
  have e₃ : ∀ obj : JSObject, utf16 "category" ∉ JSObject.keys obj →
      (if (!truthy d.category) = true then
        obj.set (utf16 "category") (utf16 "Category is required")
      else obj)
        = obj ++ ((categoryRule d.category).toList.map fun m => (utf16 "category", m)) := by
    intro obj hk
    simp only [categoryRule]
    split_ifs <;> simp_all [set_of_not_mem_keys]
  have k₁ : utf16 "description" ∉
      JSObject.keys ((titleRule d.title).toList.map fun m => (utf16 "title", m)) :=
    fun h => key_description_ne_title (mem_keys_entry h)
  have k₂ : utf16 "category" ∉
      JSObject.keys (((titleRule d.title).toList.map fun m => (utf16 "title", m))
        ++ ((descriptionRule d.description).toList.map
            fun m => (utf16 "description", m))) := by
    intro h
    simp only [JSObject.keys, List.map_append, List.mem_append] at h
    rcases h with h | h
    · exact key_category_ne_title (mem_keys_entry h)
    · exact key_category_ne_description (mem_keys_entry h)
  show (if (!truthy d.category) = true then JSObject.set _ _ _ else _) = _
  rw [e₁, e₂ _ k₁, e₃ _ k₂]

theorem validateForm_run {ι ε : Type} (d : Draft) (w : World ι ε) :
    validateForm d w =
      (.ok ((JSObject.keys (validateForm.newErrors d)).length == 0),
        { state := { w.state with errors := validateForm.newErrors d }
          log := w.log ++ [.setErrors (validateForm.newErrors d)] }) := rfl

/-! ## Trimming -/

theorem trim_length_le (s : JSString) : (trim s).length ≤ s.length := by
  unfold trim
  exact (( List.rdropWhile_prefix _ _).length_le).trans
    ((List.dropWhile_suffix isWhiteSpace).length_le)

theorem trim_trim (s : JSString) : trim (trim s) = trim s := by
  unfold trim
  have h₁ : List.dropWhile isWhiteSpace
      (List.rdropWhile isWhiteSpace (List.dropWhile isWhiteSpace s))
      = List.rdropWhile isWhiteSpace (List.dropWhile isWhiteSpace s) := by
    obtain ⟨t, ht⟩ := List.rdropWhile_prefix isWhiteSpace (List.dropWhile isWhiteSpace s)
    generalize List.rdropWhile isWhiteSpace (List.dropWhile isWhiteSpace s) = r at ht
    cases r with
    | nil => rfl
    | cons x r =>
      have hx := List.head?_dropWhile_not isWhiteSpace s
      rw [← ht] at hx
      simp only [List.cons_append, List.head?_cons] at hx
      have hx' : ¬ isWhiteSpace x = true := by simpa using hx
      exact List.dropWhile_cons_of_neg hx'
  rw [h₁, List.rdropWhile_idempotent]

/-! ## Tag editor lemmas -/

theorem addTag_guard_iff (s : ReactState) :
    (truthy (trim s.newTag) && !(s.formData.tags.contains (trim s.newTag))
        && decide (s.formData.tags.length < 5)) = true
      ↔ ¬ (trim s.newTag = [] ∨ trim s.newTag ∈ s.formData.tags
            ∨ 5 ≤ s.formData.tags.length) := by
  have h := truthy_iff (trim s.newTag)
  have hc : s.formData.tags.contains (trim s.newTag) = true
      ↔ trim s.newTag ∈ s.formData.tags := List.elem_iff
  cases hm : s.formData.tags.contains (trim s.newTag) <;>
    simp only [hm, Bool.false_eq_true, false_iff, true_iff] at hc <;>
    simp [h, hc]

theorem addTag_of_blocked (s : ReactState)
    (h : trim s.newTag = [] ∨ trim s.newTag ∈ s.formData.tags ∨ 5 ≤ s.formData.tags.length) :
    addTag s = s := by
  unfold addTag
  rw [if_neg]
  rw [addTag_guard_iff]
  exact fun hn => hn h

theorem addTag_of_free (s : ReactState)
    (h : ¬ (trim s.newTag = [] ∨ trim s.newTag ∈ s.formData.tags
          ∨ 5 ≤ s.formData.tags.length)) :
    addTag s =
      { s with
        formData := { s.formData with tags := s.formData.tags ++ [trim s.newTag] }
        newTag := utf16 "" } := by
  unfold addTag
  rw [if_pos]
  rw [addTag_guard_iff]
  exact h

theorem removeTag_tags (s : ReactState) (t : JSString) :
    (removeTag s t).formData.tags = s.formData.tags.filter (fun tag => decide (tag ≠ t)) := by
  simp only [removeTag]
  congr 1
  funext tag
  cases h : decide (tag = t) <;> simp_all

theorem tagsOk_addTag (s : ReactState) (h : TagsOk s.formData.tags) :
    TagsOk (addTag s).formData.tags := by
  by_cases hb : trim s.newTag = [] ∨ trim s.newTag ∈ s.formData.tags
      ∨ 5 ≤ s.formData.tags.length
  · rw [addTag_of_blocked s hb]; exact h
  · rw [addTag_of_free s hb]
    simp only [not_or, not_le] at hb
    obtain ⟨hne, hnm, hlt⟩ := hb
    obtain ⟨_, hnd, hall⟩ := h
    refine ⟨?_, ?_, ?_⟩
    · simp only [List.length_append, List.length_singleton]; omega
    · exact List.Nodup.append hnd (List.nodup_singleton _) (by simpa using hnm)
    · intro t ht
      rcases List.mem_append.mp ht with ht | ht
      · exact hall t ht
      · rw [List.mem_singleton] at ht
        subst ht
        exact ⟨hne, trim_trim _⟩

theorem tagsOk_removeTag (s : ReactState) (t : JSString) (h : TagsOk s.formData.tags) :
    TagsOk (removeTag s t).formData.tags := by
  rw [removeTag_tags]
  obtain ⟨hlen, hnd, hall⟩ := h
  refine ⟨?_, hnd.filter _, ?_⟩
  · exact (List.length_filter_le _ _).trans hlen
  · intro x hx
    exact hall x (List.mem_filter.mp hx).1

theorem tagsOk_step (s : ReactState) (a : Action) (h : TagsOk s.formData.tags) :
    TagsOk (step s a).formData.tags := by
  cases a with
  | addTag => exact tagsOk_addTag s h
  | removeTag t => exact tagsOk_removeTag s t h
  | _ => exact h

theorem tagsOk_run (actions : List Action) (s : ReactState) (h : TagsOk s.formData.tags) :
    TagsOk (run s actions).formData.tags := by
  induction actions generalizing s with
  | nil => exact h
  | cons a rest ih => exact ih (step s a) (tagsOk_step s a h)

theorem tagsOk_initial : TagsOk initialState.formData.tags := by decide

theorem lengthOk_step (s : ReactState) (a : Action) (h : LengthOk s)
    (ha : ∀ v, a = .changeNewTag v → v.length ≤ 20) : LengthOk (step s a) := by
  obtain ⟨hn, ht⟩ := h
  cases a with
  | changeNewTag v => exact ⟨ha v rfl, ht⟩
  | addTag =>
    show LengthOk (addTag s)
    by_cases hb : trim s.newTag = [] ∨ trim s.newTag ∈ s.formData.tags
        ∨ 5 ≤ s.formData.tags.length
    · rw [addTag_of_blocked s hb]; exact ⟨hn, ht⟩
    · rw [addTag_of_free s hb]
      refine ⟨show (utf16 "").length ≤ 20 by decide, ?_⟩
      intro t htm
      rcases List.mem_append.mp htm with htm | htm
      · exact ht t htm
      · rw [List.mem_singleton] at htm
        subst htm
        exact (trim_length_le _).trans hn
  | removeTag t =>
    refine ⟨hn, ?_⟩
    intro x hx
    rw [show (step s (.removeTag t)) = removeTag s t from rfl, removeTag_tags] at hx
    exact ht x (List.mem_filter.mp hx).1
  | _ => exact ⟨hn, ht⟩

theorem lengthOk_run (actions : List Action) (s : ReactState) (h : LengthOk s)
    (ha : ∀ v, Action.changeNewTag v ∈ actions → v.length ≤ 20) :
    LengthOk (run s actions) := by
  induction actions generalizing s with
  | nil => exact h
  | cons a rest ih =>
    refine ih (step s a) (lengthOk_step s a h ?_) ?_
    · intro v hv
      exact ha v (by rw [hv]; exact List.mem_cons_self _ _)
    · intro v hv
      exact ha v (List.mem_cons_of_mem _ hv)

/-! ## The runs of handleSubmit -/

section Runs

variable {ι ε : Type}

theorem newErrors_keys_length (d : Draft) :
    ((JSObject.keys (validateForm.newErrors d)).length == 0) = true
      ↔ validateForm.newErrors d = [] := by
  simp [JSObject.keys]

theorem handleSubmit_invalid (env : Env ι ε) (d : Draft) (w : World ι ε)
    (h : validateForm.newErrors d ≠ []) :
    handleSubmit env d w =
      (.ok (),
        { state := { w.state with errors := validateForm.newErrors d }
          log := w.log ++ [.preventDefault, .setErrors (validateForm.newErrors d)] }) := by
  have hk : ((JSObject.keys (validateForm.newErrors d)).length == 0) = false := by
    rw [← Bool.not_eq_true, newErrors_keys_length]; exact h
  simp [handleSubmit, validateForm, setErrors, bind, pure, Handler.andThen, Handler.ret,
    Handler.emit, Handler.modifyState, hk]

theorem handleSubmit_noUser (env : Env ι ε) (d : Draft) (w : World ι ε)
    (h : validateForm.newErrors d = []) (hu : env.user = none) :
    handleSubmit env d w =
      (.ok (),
        { state := { w.state with errors := [] }
          log := w.log ++ [.preventDefault, .setErrors [],
            .alert (utf16 "Please log in to submit an issue.")] }) := by
  simp [handleSubmit, validateForm, setErrors, bind, pure, Handler.andThen, Handler.ret,
    Handler.emit, Handler.modifyState, h, hu, JSObject.keys]

theorem handleSubmit_success (env : Env ι ε) (d : Draft) (w : World ι ε) (u : User ι)
    (h : validateForm.newErrors d = []) (hu : env.user = some u)
    (h₁ : env.addIssue (handleSubmit.issuePayload d u) = .ok ())
    (h₂ : env.addNotification (handleSubmit.notification d u) = .ok ())
    (h₃ : env.onCancel = .ok ()) :
    handleSubmit env d w =
      (.ok (),
        { state := { w.state with errors := [], isSubmitting := false }
          log := w.log ++ [.preventDefault, .setErrors [], .setIsSubmitting true,
            .setTimeout 1000, .addIssue (handleSubmit.issuePayload d u),
            .addNotification (handleSubmit.notification d u), .onCancel,
            .setIsSubmitting false] }) := by
  simp [handleSubmit, validateForm, setErrors, setIsSubmitting, bind, pure, Handler.andThen,
    Handler.ret, Handler.emit, Handler.modifyState, Handler.call, h, hu, h₁, h₂, h₃,
    JSObject.keys, tryFinally, tryCatch, MonadFinally.tryFinally', MonadExcept.tryCatch,
    Handler.tryFinally, Handler.tryCatch, Functor.map]

theorem handleSubmit_addIssue_throws (env : Env ι ε) (d : Draft) (w : World ι ε)
    (u : User ι) (e : ε)
    (h : validateForm.newErrors d = []) (hu : env.user = some u)
    (h₁ : env.addIssue (handleSubmit.issuePayload d u) = .error e) :
    handleSubmit env d w =
      (.ok (),
        { state := { w.state with errors := [], isSubmitting := false }
          log := w.log ++ [.preventDefault, .setErrors [], .setIsSubmitting true,
            .setTimeout 1000, .addIssue (handleSubmit.issuePayload d u),
            .consoleError (utf16 "Error submitting issue:") e,
            .setIsSubmitting false] }) := by
  simp [handleSubmit, validateForm, setErrors, setIsSubmitting, bind, pure, Handler.andThen,
    Handler.ret, Handler.emit, Handler.modifyState, Handler.call, h, hu, h₁,
    JSObject.keys, tryFinally, tryCatch, MonadFinally.tryFinally', MonadExcept.tryCatch,
    Handler.tryFinally, Handler.tryCatch, Functor.map]

theorem handleSubmit_addNotification_throws (env : Env ι ε) (d : Draft) (w : World ι ε)
    (u : User ι) (e : ε)
    (h : validateForm.newErrors d = []) (hu : env.user = some u)
    (h₁ : env.addIssue (handleSubmit.issuePayload d u) = .ok ())
    (h₂ : env.addNotification (handleSubmit.notification d u) = .error e) :
    handleSubmit env d w =
      (.ok (),
        { state := { w.state with errors := [], isSubmitting := false }
          log := w.log ++ [.preventDefault, .setErrors [], .setIsSubmitting true,
            .setTimeout 1000, .addIssue (handleSubmit.issuePayload d u),
            .addNotification (handleSubmit.notification d u),
            .consoleError (utf16 "Error submitting issue:") e,
            .setIsSubmitting false] }) := by
  simp [handleSubmit, validateForm, setErrors, setIsSubmitting, bind, pure, Handler.andThen,
    Handler.ret, Handler.emit, Handler.modifyState, Handler.call, h, hu, h₁, h₂,
    JSObject.keys, tryFinally, tryCatch, MonadFinally.tryFinally', MonadExcept.tryCatch,
    Handler.tryFinally, Handler.tryCatch, Functor.map]

theorem calls_of_log (env : Env ι ε) (d : Draft) (w : World ι ε) (r : Except ε Unit)
    (st : ReactState) (cs : List (Effect ι ε))
    (h : handleSubmit env d w = (r, { state := st, log := w.log ++ cs })) :
    handleSubmit.calls env d w = cs := by
  simp [handleSubmit.calls, h]

end Runs

/-! ## Consequences of the normal form -/

theorem entry_eq_nil_iff (k : JSString) (o : Option JSString) :
    (o.toList.map fun m => (k, m)) = [] ↔ o = none := by
  cases o <;> simp

theorem newErrors_eq_nil_iff (d : Draft) :
    validateForm.newErrors d = [] ↔
      titleRule d.title = none ∧ descriptionRule d.description = none
        ∧ categoryRule d.category = none := by
  rw [newErrors_eq]
  simp only [List.append_eq_nil, entry_eq_nil_iff, and_assoc]

theorem categoryRule_eq_none_iff (c : JSString) : categoryRule c = none ↔ c ≠ [] := by
  cases c <;> simp [categoryRule]

theorem categoryRule_eq_some_iff (c : JSString) :
    categoryRule c = some (utf16 "Category is required") ↔ c = [] := by
  cases c <;> simp [categoryRule]

theorem newErrors_keys_subset (d : Draft) (k : JSString)
    (h : k ∈ JSObject.keys (validateForm.newErrors d)) :
    k = utf16 "title" ∨ k = utf16 "description" ∨ k = utf16 "category" := by
  rw [newErrors_eq] at h
  simp only [JSObject.keys, List.map_append, List.mem_append] at h
  rcases h with (h | h) | h
  · exact Or.inl (mem_keys_entry h)
  · exact Or.inr (Or.inl (mem_keys_entry h))
  · exact Or.inr (Or.inr (mem_keys_entry h))

theorem newErrors_congr (d d' : Draft) (h₁ : d'.title = d.title)
    (h₂ : d'.description = d.description) (h₃ : d'.category = d.category) :
    validateForm.newErrors d' = validateForm.newErrors d := by
  rw [newErrors_eq, newErrors_eq, h₁, h₂, h₃]

theorem validateForm_ok_iff {ι ε : Type} (d : Draft) (w : World ι ε) :
    (validateForm d w).1 = .ok true ↔ validateForm.newErrors d = [] := by
  rw [validateForm_run]
  simp [JSObject.keys]

theorem validateForm_not_ok_iff {ι ε : Type} (d : Draft) (w : World ι ε) :
    (validateForm d w).1 = .ok false ↔ validateForm.newErrors d ≠ [] := by
  rw [validateForm_run]
  simp [JSObject.keys]

/-! ## Validation claims -/

theorem rule_isSome_iff (m₁ m₂ m₃ : JSString) (a b c : Prop) [Decidable a] [Decidable b]
    [Decidable c] :
    (if a then some m₁ else if b then some m₂ else if c then some m₃ else none).isSome = true
      ↔ a ∨ b ∨ c := by
  by_cases ha : a <;> by_cases hb : b <;> by_cases hc : c <;> simp [ha, hb, hc]

/-- C1: the title entry of the error object depends on the title alone and follows the
rule required / at least 10 / at most 200 in that priority; an entry is present iff the
trimmed length is 0, or the raw length is below 10 or above 200; a non-blank title of
exactly 10 or exactly 200 code units has no entry; the title "Bad" gets the
at-least-10 message. -/
theorem validateForm_title_error (d : Draft) :
    (validateForm.newErrors d).get (utf16 "title") = titleRule d.title
    ∧ (((validateForm.newErrors d).get (utf16 "title")).isSome = true
        ↔ (trim d.title).length = 0 ∨ d.title.length < 10 ∨ d.title.length > 200)
    ∧ ((trim d.title).length ≠ 0 ∧ (d.title.length = 10 ∨ d.title.length = 200)
        → (validateForm.newErrors d).get (utf16 "title") = none)
    ∧ (validateForm.newErrors { d with title := utf16 "Bad" }).get (utf16 "title")
        = some (utf16 "Title must be at least 10 characters long") := by
  refine ⟨newErrors_get_title d, ?_, ?_, ?_⟩
  · rw [newErrors_get_title]
    exact rule_isSome_iff _ _ _ _ _ _
  · rintro ⟨h₀, h⟩
    rw [newErrors_get_title]
    unfold titleRule
    rw [if_neg h₀, if_neg (by omega), if_neg (by omega)]
  · rw [newErrors_get_title]
    rfl

/-- Witness for C1: a title of exactly ten letters is accepted. -/
theorem validateForm_title_error_witness :
    (trim (utf16 "Potholes!!")).length ≠ 0
    ∧ (validateForm.newErrors { initialState.formData with title := utf16 "Potholes!!" }).get
        (utf16 "title") = none :=
  ⟨by decide,
    (validateForm_title_error
      { initialState.formData with title := utf16 "Potholes!!" }).2.2.1
      ⟨by decide, Or.inl (by decide)⟩⟩

/-- C2: the description entry of the error object depends on the description alone and
follows the rule required / at least 20 / at most 2000 in that priority; an entry is
present iff the trimmed length is 0, or the raw length is below 20 or above 2000. -/
theorem validateForm_description_error (d : Draft) :
    (validateForm.newErrors d).get (utf16 "description") = descriptionRule d.description
    ∧ (((validateForm.newErrors d).get (utf16 "description")).isSome = true
        ↔ (trim d.description).length = 0 ∨ d.description.length < 20
          ∨ d.description.length > 2000) := by
  refine ⟨newErrors_get_description d, ?_⟩
  rw [newErrors_get_description]
  exact rule_isSome_iff _ _ _ _ _ _

/-- C8: validateForm returns true iff the error object it stores has no keys; the stored
object is the computed one; it has the category entry "Category is required" iff the
category is empty and none otherwise; its keys are among title, description and
category; the result is true iff there is no title entry, no description entry and the
category is non-empty; the result is the same for drafts that agree on title,
description and category; the draft cell is not written. -/
theorem validateForm_result {ι ε : Type} (d : Draft) (w : World ι ε) :
    (validateForm d w).1
        = .ok (decide (JSObject.keys (validateForm d w).2.state.errors = []))
    ∧ (validateForm d w).2.state.errors = validateForm.newErrors d
    ∧ ((validateForm.newErrors d).get (utf16 "category")
          = some (utf16 "Category is required") ↔ d.category = [])
    ∧ ((validateForm.newErrors d).get (utf16 "category") = none ↔ d.category ≠ [])
    ∧ (∀ k ∈ JSObject.keys (validateForm.newErrors d),
        k = utf16 "title" ∨ k = utf16 "description" ∨ k = utf16 "category")
    ∧ ((validateForm d w).1 = .ok true ↔
        (validateForm.newErrors d).get (utf16 "title") = none
          ∧ (validateForm.newErrors d).get (utf16 "description") = none
          ∧ d.category ≠ [])
    ∧ (∀ priority location tags,
        (validateForm { d with priority := priority, location := location, tags := tags }
            w).1 = (validateForm d w).1)
    ∧ (validateForm d w).2.state.formData = w.state.formData := by
  refine ⟨?_, rfl, ?_, ?_, newErrors_keys_subset d, ?_, ?_, rfl⟩
  · rw [validateForm_run]
    cases validateForm.newErrors d <;> simp [JSObject.keys]
  · rw [newErrors_get_category, categoryRule_eq_some_iff]
  · rw [newErrors_get_category, categoryRule_eq_none_iff]
  · rw [validateForm_ok_iff, newErrors_eq_nil_iff, newErrors_get_title,
      newErrors_get_description, categoryRule_eq_none_iff]
  · intro priority location tags
    rw [validateForm_run, validateForm_run,
      newErrors_congr d { d with priority := priority, location := location, tags := tags }
        rfl rfl rfl]

/-! ## Tag editor claims -/

/-- C3: addTag leaves the whole state (tag list and pending input included) unchanged
when the trimmed pending input is empty, is already a tag, or the list already has five
or more entries; otherwise it appends the trimmed pending input as the last tag and
clears the pending input; with the five scenario tags, adding "noise" leaves the list
at those five. -/
theorem addTag_spec (s : ReactState) :
    ((trim s.newTag = [] ∨ trim s.newTag ∈ s.formData.tags ∨ 5 ≤ s.formData.tags.length)
        → (addTag s).formData.tags = s.formData.tags ∧ (addTag s).newTag = s.newTag
          ∧ addTag s = s)
    ∧ (¬ (trim s.newTag = [] ∨ trim s.newTag ∈ s.formData.tags
            ∨ 5 ≤ s.formData.tags.length)
        → (addTag s).formData.tags = s.formData.tags ++ [trim s.newTag]
          ∧ (addTag s).newTag = utf16 ""
          ∧ addTag s =
              { s with
                formData := { s.formData with tags := s.formData.tags ++ [trim s.newTag] }
                newTag := utf16 "" })
    ∧ (addTag { s with
          formData := { s.formData with tags := fiveTags }
          newTag := utf16 "noise" }).formData.tags = fiveTags
    ∧ fiveTags.length = 5 := by
  refine ⟨?_, ?_, ?_, rfl⟩
  · intro h
    rw [addTag_of_blocked s h]
    exact ⟨rfl, rfl, rfl⟩
  · intro h
    rw [addTag_of_free s h]
    exact ⟨rfl, rfl, rfl⟩
  · rw [addTag_of_blocked _ (Or.inr (Or.inr (show 5 ≤ fiveTags.length by decide)))]

/-- Witness for C3: from the initial state with " safety " typed, addTag stores
"safety" and clears the input. -/
theorem addTag_spec_witness :
    ¬ (trim (utf16 " safety ") = [] ∨ trim (utf16 " safety ") ∈ initialState.formData.tags
        ∨ 5 ≤ initialState.formData.tags.length)
    ∧ (addTag { initialState with newTag := utf16 " safety " }).formData.tags
        = [utf16 "safety"]
    ∧ (addTag { initialState with newTag := utf16 " safety " }).newTag = utf16 "" :=
  ⟨by decide,
    ((addTag_spec { initialState with newTag := utf16 " safety " }).2.1 (by decide)).1,
    ((addTag_spec { initialState with newTag := utf16 " safety " }).2.1 (by decide)).2.1⟩

/-- C4: the tag list of every state reached from the initial state by any sequence of
actions (typing a pending input, addTag, removeTag, field edits) has at most five
entries, no two equal, each non-empty and equal to its own trim; the predicate holds
initially and is preserved by addTag and by removeTag. -/
theorem tags_invariant (actions : List Action) :
    ((run initialState actions).formData.tags.length ≤ 5
      ∧ (run initialState actions).formData.tags.Nodup
      ∧ ∀ t ∈ (run initialState actions).formData.tags, t ≠ [] ∧ trim t = t)
    ∧ TagsOk initialState.formData.tags
    ∧ (∀ s : ReactState, TagsOk s.formData.tags → TagsOk (addTag s).formData.tags)
    ∧ (∀ (s : ReactState) (t : JSString),
        TagsOk s.formData.tags → TagsOk (removeTag s t).formData.tags) :=
  ⟨tagsOk_run actions initialState tagsOk_initial, tagsOk_initial, tagsOk_addTag,
    tagsOk_removeTag⟩

/-- Witness for C4: a state holding one tag keeps the invariant through addTag. -/
theorem tags_invariant_witness :
    TagsOk [utf16 "parks"]
    ∧ TagsOk (addTag
        { initialState with
          formData := { initialState.formData with tags := [utf16 "parks"] }
          newTag := utf16 "trash" }).formData.tags :=
  ⟨by decide,
    (tags_invariant []).2.2.1
      { initialState with
        formData := { initialState.formData with tags := [utf16 "parks"] }
        newTag := utf16 "trash" } (by decide)⟩

/-- C5: on a tag list without duplicates, removeTag of an absent string changes nothing;
removeTag of a present string erases its first occurrence, so the length drops by
exactly one, the string no longer occurs, every other entry stays and the order of the
remaining entries is kept. -/
theorem removeTag_spec (s : ReactState) (t : JSString) (h : s.formData.tags.Nodup) :
    (t ∉ s.formData.tags → removeTag s t = s)
    ∧ (t ∈ s.formData.tags →
        (removeTag s t).formData.tags = s.formData.tags.erase t
        ∧ (removeTag s t).formData.tags.length + 1 = s.formData.tags.length
        ∧ t ∉ (removeTag s t).formData.tags
        ∧ (∀ x ∈ s.formData.tags, x ≠ t → x ∈ (removeTag s t).formData.tags)
        ∧ (removeTag s t).formData.tags.Sublist s.formData.tags) := by
  have hf := removeTag_tags s t
  constructor
  · intro hn
    have : (removeTag s t).formData.tags = s.formData.tags := by
      rw [hf, List.filter_eq_self]
      intro x hx
      simpa using fun e : x = t => hn (e ▸ hx)
    show ({ s with formData := { s.formData with tags := (removeTag s t).formData.tags } }
      : ReactState) = s
    rw [this]
  · intro hm
    have he : (removeTag s t).formData.tags = s.formData.tags.erase t := by
      rw [hf, h.erase_eq_filter]
      congr 1
      funext x
      cases hx : decide (x = t) <;> simp_all
    refine ⟨he, ?_, ?_, ?_, ?_⟩
    · rw [he, List.length_erase_of_mem hm]
      have := List.length_pos_of_mem hm
      omega
    · rw [he]; exact h.not_mem_erase
    · intro x hx hne
      rw [he]
      exact (List.mem_erase_of_ne hne).mpr hx
    · rw [he]; exact List.erase_sublist _ _

/-- Witness for C5: removing "urgent" from the five scenario tags. -/
theorem removeTag_spec_witness :
    fiveTags.Nodup
    ∧ utf16 "urgent" ∈ fiveTags
    ∧ (removeTag { initialState with
          formData := { initialState.formData with tags := fiveTags } }
        (utf16 "urgent")).formData.tags
        = [utf16 "safety", utf16 "downtown", utf16 "parks", utf16 "trash"] :=
  ⟨by decide, by decide,
    ((removeTag_spec
        { initialState with formData := { initialState.formData with tags := fiveTags } }
        (utf16 "urgent") (by decide)).2 (by decide)).1.trans (by decide)⟩

/-- C10 as stated fails: typing a pending input of 21 code units and calling addTag
stores a tag of 21 code units. -/
theorem tag_length_unbounded :
    ¬ ∀ actions : List Action,
        ∀ t ∈ (run initialState actions).formData.tags, t.length ≤ 20 := by
  intro h
  have h21 := h [.changeNewTag longTag, .addTag] longTag (by decide)
  revert h21
  decide

/-- C10 amended: when every pending input typed has at most 20 code units (what the
tag-entry control enforces), every tag of every reachable state has at most 20. -/
theorem tag_length_bound (actions : List Action)
    (h : ∀ v, Action.changeNewTag v ∈ actions → v.length ≤ 20) :
    ∀ t ∈ (run initialState actions).formData.tags, t.length ≤ 20 :=
  (lengthOk_run actions initialState (by decide) h).2

/-- Witness for C10 amended: two tags typed within the bound. -/
theorem tag_length_bound_witness :
    (∀ v, Action.changeNewTag v ∈
        [Action.changeNewTag (utf16 "parks"), Action.addTag,
          Action.changeNewTag (utf16 " trash"), Action.addTag] → v.length ≤ 20)
    ∧ ∀ t ∈ (run initialState
        [Action.changeNewTag (utf16 "parks"), Action.addTag,
          Action.changeNewTag (utf16 " trash"), Action.addTag]).formData.tags,
        t.length ≤ 20 :=
  ⟨by
      intro v hv
      simp only [List.mem_cons, Action.changeNewTag.injEq, List.mem_singleton,
        List.not_mem_nil, or_false, reduceCtorEq, false_or] at hv
      rcases hv with rfl | rfl <;> decide,
    tag_length_bound _ (by
      intro v hv
      simp only [List.mem_cons, Action.changeNewTag.injEq, List.mem_singleton,
        List.not_mem_nil, or_false, reduceCtorEq, false_or] at hv
      rcases hv with rfl | rfl <;> decide)⟩

/-! ## Submission claims -/

/-- C6: when validateForm returns false or no user is present, handleSubmit completes
normally, calls none of addIssue, addNotification and onCancel, never calls
setIsSubmitting(true) and leaves the in-progress cell as it was; the log only grows by
the calls made.  Hence a run with a collaborator call had validateForm return true and
a user present. -/
theorem handleSubmit_guard {ι ε : Type} (env : Env ι ε) (d : Draft) (w : World ι ε) :
    (((validateForm d w).1 = .ok false ∨ env.user = none) →
        (∀ c ∈ handleSubmit.calls env d w,
            c.isAddIssue = false ∧ c.isAddNotification = false ∧ c.isOnCancel = false
              ∧ c.raisesFlag = false)
        ∧ (handleSubmit env d w).2.state.isSubmitting = w.state.isSubmitting
        ∧ (handleSubmit env d w).1 = .ok ()
        ∧ (handleSubmit env d w).2.log = w.log ++ handleSubmit.calls env d w)
    ∧ ((∃ c ∈ handleSubmit.calls env d w, c.isCollaborator = true) →
        (validateForm d w).1 = .ok true ∧ validateForm.newErrors d = []
          ∧ ∃ u, env.user = some u) := by
  have key : ((validateForm d w).1 = .ok false ∨ env.user = none) →
      (∀ c ∈ handleSubmit.calls env d w,
            c.isAddIssue = false ∧ c.isAddNotification = false ∧ c.isOnCancel = false
              ∧ c.raisesFlag = false)
        ∧ (handleSubmit env d w).2.state.isSubmitting = w.state.isSubmitting
        ∧ (handleSubmit env d w).1 = .ok ()
        ∧ (handleSubmit env d w).2.log = w.log ++ handleSubmit.calls env d w := by
    intro h
    by_cases hv : validateForm.newErrors d = []
    · have hu : env.user = none := by
        rcases h with h | h
        · exact absurd hv ((validateForm_not_ok_iff d w).mp h)
        · exact h
      have hr := handleSubmit_noUser env d w hv hu
      rw [calls_of_log env d w _ _ _ hr, hr]
      refine ⟨?_, rfl, rfl, rfl⟩
      intro c hc
      simp only [List.mem_cons, List.mem_singleton, List.not_mem_nil, or_false] at hc
      rcases hc with rfl | rfl | rfl <;> exact ⟨rfl, rfl, rfl, rfl⟩
    · have hr := handleSubmit_invalid env d w hv
      rw [calls_of_log env d w _ _ _ hr, hr]
      refine ⟨?_, rfl, rfl, rfl⟩
      intro c hc
      simp only [List.mem_cons, List.mem_singleton, List.not_mem_nil, or_false] at hc
      rcases hc with rfl | rfl <;> exact ⟨rfl, rfl, rfl, rfl⟩
  refine ⟨key, ?_⟩
  rintro ⟨c, hc, hcol⟩
  have hno : ¬ ((validateForm d w).1 = .ok false ∨ env.user = none) := by
    intro h
    obtain ⟨h₁, h₂, h₃, _⟩ := (key h).1 c hc
    simp [Effect.isCollaborator, h₁, h₂, h₃] at hcol
  have hv : validateForm.newErrors d = [] := by
    by_contra hne
    exact hno (Or.inl ((validateForm_not_ok_iff d w).mpr hne))
  refine ⟨(validateForm_ok_iff d w).mpr hv, hv, ?_⟩
  cases hu : env.user with
  | none => exact absurd (Or.inr hu) hno
  | some u => exact ⟨u, rfl⟩

/-- Witness for C6: the scenario draft submitted with nobody logged in makes three
calls, none of them to a collaborator. -/
theorem handleSubmit_guard_witness :
    ((validateForm scenarioDraft scenarioWorld).1 = Except.ok false ∨ anonymousEnv.user = none)
    ∧ (∀ c ∈ handleSubmit.calls anonymousEnv scenarioDraft scenarioWorld,
        c.isAddIssue = false ∧ c.isAddNotification = false ∧ c.isOnCancel = false
          ∧ c.raisesFlag = false)
    ∧ (handleSubmit.calls anonymousEnv scenarioDraft scenarioWorld).length = 3 :=
  ⟨Or.inr rfl,
    ((handleSubmit_guard anonymousEnv scenarioDraft scenarioWorld).1 (Or.inr rfl)).1,
    by decide⟩

/-- C7: for a draft on which validateForm returns true, a present user and
collaborators that return, handleSubmit completes normally and its collaborator calls are
exactly addIssue, addNotification, onCancel in this order, once each; the addIssue
argument carries the six draft fields, status "submitted" and the user id and name; the
addNotification argument has the user id, type "success", read false and a message
containing the title; setIsSubmitting(true) precedes them and the in-progress cell is
false at the end. -/
theorem handleSubmit_success_spec {ι ε : Type} (env : Env ι ε) (d : Draft) (w : World ι ε)
    (u : User ι)
    (hv : (validateForm d w).1 = .ok true)
    (hu : env.user = some u)
    (h₁ : env.addIssue (handleSubmit.issuePayload d u) = .ok ())
    (h₂ : env.addNotification (handleSubmit.notification d u) = .ok ())
    (h₃ : env.onCancel = .ok ()) :
    ∃ (p : IssuePayload ι) (n : NotificationEntry ι),
      (handleSubmit.calls env d w).filter Effect.isCollaborator
          = [.addIssue p, .addNotification n, .onCancel]
      ∧ handleSubmit.calls env d w
          = [.preventDefault, .setErrors [], .setIsSubmitting true, .setTimeout 1000,
              .addIssue p, .addNotification n, .onCancel, .setIsSubmitting false]
      ∧ (handleSubmit env d w).2.log = w.log ++ handleSubmit.calls env d w
      ∧ (p.title = d.title ∧ p.description = d.description ∧ p.category = d.category
          ∧ p.priority = d.priority ∧ p.location = d.location ∧ p.tags = d.tags)
      ∧ (p.status = utf16 "submitted" ∧ p.citizenId = u.id ∧ p.citizenName = u.name)
      ∧ (n.userId = u.id ∧ n.type = utf16 "success" ∧ n.read = false
          ∧ d.title <:+: n.message)
      ∧ (handleSubmit env d w).1 = .ok ()
      ∧ (handleSubmit env d w).2.state.isSubmitting = false := by
  have hr := handleSubmit_success env d w u ((validateForm_ok_iff d w).mp hv) hu h₁ h₂ h₃
  refine ⟨handleSubmit.issuePayload d u, handleSubmit.notification d u, ?_⟩
  rw [calls_of_log env d w _ _ _ hr, hr]
  exact ⟨rfl, rfl, rfl, ⟨rfl, rfl, rfl, rfl, rfl, rfl⟩, ⟨rfl, rfl, rfl⟩,
    ⟨rfl, rfl, rfl, ⟨_, _, rfl⟩⟩, rfl, rfl⟩

/-- Witness for C7: the pothole scenario with user 1 named "A"; addIssue receives
citizenId 1, citizenName "A" and status "submitted", and onCancel is called last. -/
theorem handleSubmit_success_scenario :
    (validateForm scenarioDraft scenarioWorld).1 = Except.ok true
    ∧ scenarioEnv.user = some scenarioUser
    ∧ scenarioUser.id = 1 ∧ scenarioUser.name = utf16 "A"
    ∧ ∃ (p : IssuePayload Nat) (n : NotificationEntry Nat),
      (handleSubmit.calls scenarioEnv scenarioDraft scenarioWorld).filter
          Effect.isCollaborator = [.addIssue p, .addNotification n, .onCancel]
      ∧ p.citizenId = 1 ∧ p.citizenName = utf16 "A" ∧ p.status = utf16 "submitted"
      ∧ p.title = utf16 "Pothole on Main St" ∧ p.category = utf16 "Roads" :=
  ⟨rfl, rfl, rfl, rfl,
    match handleSubmit_success_spec scenarioEnv scenarioDraft scenarioWorld scenarioUser
        rfl rfl rfl rfl rfl with
    | ⟨p, n, hc, _, _, ht, hs, _⟩ =>
      ⟨p, n, hc, hs.2.1, hs.2.2, hs.1, ht.1, ht.2.2.1⟩⟩

/-- C9: for a draft on which validateForm returns true and a present user, when addIssue
throws, or addIssue returns and addNotification throws, handleSubmit completes normally,
onCancel is not called (and addNotification is not called when addIssue threw), the
thrown value is passed to console.error, the in-progress cell is false at the end and
the draft cell is untouched. -/
theorem handleSubmit_failure_spec {ι ε : Type} (env : Env ι ε) (d : Draft) (w : World ι ε)
    (u : User ι) (e : ε)
    (hv : (validateForm d w).1 = .ok true)
    (hu : env.user = some u)
    (hf : env.addIssue (handleSubmit.issuePayload d u) = .error e
      ∨ (env.addIssue (handleSubmit.issuePayload d u) = .ok ()
          ∧ env.addNotification (handleSubmit.notification d u) = .error e)) :
    (handleSubmit env d w).1 = .ok ()
    ∧ (∀ c ∈ handleSubmit.calls env d w, c.isOnCancel = false)
    ∧ (env.addIssue (handleSubmit.issuePayload d u) = .error e →
        ∀ c ∈ handleSubmit.calls env d w, c.isAddNotification = false)
    ∧ Effect.consoleError (utf16 "Error submitting issue:") e ∈ handleSubmit.calls env d w
    ∧ (handleSubmit env d w).2.log = w.log ++ handleSubmit.calls env d w
    ∧ (handleSubmit env d w).2.state.isSubmitting = false
    ∧ (handleSubmit env d w).2.state.formData = w.state.formData := by
  have hn := (validateForm_ok_iff d w).mp hv
  rcases hf with h₁ | ⟨h₁, h₂⟩
  · have hr := handleSubmit_addIssue_throws env d w u e hn hu h₁
    rw [calls_of_log env d w _ _ _ hr, hr]
    refine ⟨rfl, ?_, ?_, by simp, rfl, rfl, rfl⟩
    · intro c hc
      simp only [List.mem_cons, List.mem_singleton, List.not_mem_nil, or_false] at hc
      rcases hc with rfl | rfl | rfl | rfl | rfl | rfl | rfl <;> rfl
    · intro _ c hc
      simp only [List.mem_cons, List.mem_singleton, List.not_mem_nil, or_false] at hc
      rcases hc with rfl | rfl | rfl | rfl | rfl | rfl | rfl <;> rfl
  · have hr := handleSubmit_addNotification_throws env d w u e hn hu h₁ h₂
    rw [calls_of_log env d w _ _ _ hr, hr]
    refine ⟨rfl, ?_, ?_, by simp, rfl, rfl, rfl⟩
    · intro c hc
      simp only [List.mem_cons, List.mem_singleton, List.not_mem_nil, or_false] at hc
      rcases hc with rfl | rfl | rfl | rfl | rfl | rfl | rfl | rfl <;> rfl
    · intro he
      rw [h₁] at he
      cases he

/-- Witness for C9: the pothole scenario against an issue store that throws. -/
theorem handleSubmit_failure_scenario :
    (validateForm scenarioDraft scenarioWorld).1 = Except.ok true
    ∧ failingStoreEnv.user = some scenarioUser
    ∧ failingStoreEnv.addIssue (handleSubmit.issuePayload scenarioDraft scenarioUser)
        = Except.error "store unavailable"
    ∧ (handleSubmit failingStoreEnv scenarioDraft scenarioWorld).1 = Except.ok ()
    ∧ (∀ c ∈ handleSubmit.calls failingStoreEnv scenarioDraft scenarioWorld,
        c.isOnCancel = false)
    ∧ (handleSubmit failingStoreEnv scenarioDraft scenarioWorld).2.state.isSubmitting = false
    ∧ (handleSubmit failingStoreEnv scenarioDraft scenarioWorld).2.state.formData
        = scenarioDraft :=
  ⟨rfl, rfl, rfl,
    match handleSubmit_failure_spec failingStoreEnv scenarioDraft scenarioWorld scenarioUser
        "store unavailable" rfl rfl (Or.inl rfl) with
    | ⟨h₀, hc, _, _, _, hs, hd⟩ => ⟨h₀, hc, hs, hd⟩⟩


end CreateIssue
